import Mathlib

/-!
Verification of the admin dashboard page (`src/frontend/src/app/admin/page.tsx`).

The page is a server component: it fetches `{API_BASE_URL}/api/admin/all-data`,
throws on a non-OK response, parses the JSON body as an `ApiResponse`, and maps
the registration records into markup.  We embed it shallowly:

* `Json` / `jsonParse` model JavaScript's `JSON.parse` (numbers are kept as
  their raw token string; no claim depends on float formatting);
* `Node` is the rendered markup tree (React keys are modelled as a `"key"`
  attribute);
* `renderItem` / `renderPage` are the JSX of the component body, and `Page`
  models the whole component from the HTTP response onwards (the network fetch
  itself is environmental input).  Thrown JavaScript exceptions are modelled by
  the `Except JsError` result.
-/

set_option maxRecDepth 10000

/-- The opening brace character. -/
def lbrace : Char := Char.ofNat 123

/-- The closing brace character. -/
def rbrace : Char := Char.ofNat 125

/-- The double-quote character. -/
def quoteChar : Char := Char.ofNat 34

/-- The backslash character. -/
def backslashChar : Char := Char.ofNat 92

/-- JavaScript JSON values.  A number is kept as its raw source token. -/
inductive Json where
  | null : Json
  | bool (b : Bool) : Json
  | num (raw : String) : Json
  | str (s : String) : Json
  | arr (xs : List Json) : Json
  | obj (fields : List (String × Json)) : Json

/-- JSON whitespace characters accepted by `JSON.parse`. -/
def jsonWs (c : Char) : Bool :=
  c = ' ' || c = Char.ofNat 9 || c = Char.ofNat 10 || c = Char.ofNat 13

/-- Drop leading JSON whitespace. -/
def skipWs : List Char → List Char
  | [] => []
  | c :: cs => if jsonWs c then skipWs cs else c :: cs

/-- Decimal digit test on characters. -/
def isDigitCh (c : Char) : Bool := 48 ≤ c.toNat && c.toNat ≤ 57

/-- Value of a hexadecimal digit, if any. -/
def hexVal (c : Char) : Option Nat :=
  if 48 ≤ c.toNat ∧ c.toNat ≤ 57 then some (c.toNat - 48)
  else if 97 ≤ c.toNat ∧ c.toNat ≤ 102 then some (c.toNat - 87)
  else if 65 ≤ c.toNat ∧ c.toNat ≤ 70 then some (c.toNat - 55)
  else none

/-- Single-character JSON string escapes. -/
def escChar (e : Char) : Option Char :=
  if e = quoteChar then some quoteChar
  else if e = backslashChar then some backslashChar
  else if e = '/' then some '/'
  else if e = 'b' then some (Char.ofNat 8)
  else if e = 'f' then some (Char.ofNat 12)
  else if e = 'n' then some (Char.ofNat 10)
  else if e = 'r' then some (Char.ofNat 13)
  else if e = 't' then some (Char.ofNat 9)
  else none

/-- Body of a JSON string after the opening quote: returns the decoded
characters and the remaining input after the closing quote. -/
def parseStringBody : List Char → Except String (List Char × List Char)
  | [] => Except.error "Unterminated string in JSON"
  | c :: cs =>
    if c = quoteChar then Except.ok ([], cs)
    else if c = backslashChar then
      match cs with
      | 'u' :: h1 :: h2 :: h3 :: h4 :: cs2 =>
        match hexVal h1, hexVal h2, hexVal h3, hexVal h4 with
        | some a, some b, some c2, some d =>
          match parseStringBody cs2 with
          | Except.ok (s, rest) =>
              Except.ok (Char.ofNat (4096 * a + 256 * b + 16 * c2 + d) :: s, rest)
          | Except.error e => Except.error e
        | _, _, _, _ => Except.error "Bad Unicode escape in JSON"
      | e :: cs2 =>
        match escChar e with
        | some ch =>
          match parseStringBody cs2 with
          | Except.ok (s, rest) => Except.ok (ch :: s, rest)
          | Except.error err => Except.error err
        | none => Except.error "Bad escaped character in JSON"
      | [] => Except.error "Unterminated string in JSON"
    else if c.toNat < 32 then Except.error "Bad control character in JSON string"
    else
      match parseStringBody cs with
      | Except.ok (s, rest) => Except.ok (c :: s, rest)
      | Except.error e => Except.error e

/-- Take a maximal run of decimal digits. -/
def takeDigits : List Char → List Char × List Char
  | [] => ([], [])
  | c :: cs =>
    if isDigitCh c then
      let p := takeDigits cs
      (c :: p.1, p.2)
    else ([], c :: cs)

/-- Integer part of a JSON number: `0` or a nonzero digit followed by digits. -/
def parseIntPart : List Char → Except String (List Char × List Char)
  | [] => Except.error "Unexpected end of JSON input"
  | c :: cs =>
    if c = '0' then Except.ok ([c], cs)
    else if isDigitCh c then
      let p := takeDigits cs
      Except.ok (c :: p.1, p.2)
    else Except.error "Unexpected token in JSON number"

/-- Optional fractional part of a JSON number. -/
def parseFracPart : List Char → Except String (List Char × List Char)
  | '.' :: cs =>
    (match cs with
     | c :: cs2 =>
       if isDigitCh c then
         let p := takeDigits cs2
         Except.ok ('.' :: c :: p.1, p.2)
       else Except.error "Unterminated fractional number in JSON"
     | [] => Except.error "Unterminated fractional number in JSON")
  | cs => Except.ok ([], cs)

/-- Optional exponent part of a JSON number. -/
def parseExpPart : List Char → Except String (List Char × List Char)
  | c :: cs =>
    if c = 'e' ∨ c = 'E' then
      match cs with
      | s :: cs2 =>
        if s = '+' ∨ s = '-' then
          match cs2 with
          | d :: cs3 =>
            if isDigitCh d then
              let p := takeDigits cs3
              Except.ok (c :: s :: d :: p.1, p.2)
            else Except.error "Exponent part is missing a number in JSON"
          | [] => Except.error "Exponent part is missing a number in JSON"
        else if isDigitCh s then
          let p := takeDigits cs2
          Except.ok (c :: s :: p.1, p.2)
        else Except.error "Exponent part is missing a number in JSON"
      | [] => Except.error "Exponent part is missing a number in JSON"
    else Except.ok ([], c :: cs)
  | [] => Except.ok ([], [])

/-- A JSON number token (sign, integer, fraction, exponent), kept raw. -/
def parseNumber (cs : List Char) : Except String (List Char × List Char) :=
  let sp : List Char × List Char :=
    match cs with
    | c :: rest => if c = '-' then ([c], rest) else ([], cs)
    | [] => ([], [])
  match parseIntPart sp.2 with
  | Except.error e => Except.error e
  | Except.ok (ip, cs2) =>
    match parseFracPart cs2 with
    | Except.error e => Except.error e
    | Except.ok (fp, cs3) =>
      match parseExpPart cs3 with
      | Except.error e => Except.error e
      | Except.ok (ep, cs4) => Except.ok (sp.1 ++ ip ++ fp ++ ep, cs4)

mutual

/-- One JSON value; `fuel` bounds nesting (chosen large enough at top level). -/
def parseValue : Nat → List Char → Except String (Json × List Char)
  | 0, _ => Except.error "JSON input too deeply nested"
  | fuel + 1, cs =>
    match skipWs cs with
    | [] => Except.error "Unexpected end of JSON input"
    | c :: cs1 =>
      if c = quoteChar then
        match parseStringBody cs1 with
        | Except.ok (s, rest) => Except.ok (Json.str (String.mk s), rest)
        | Except.error e => Except.error e
      else if c = lbrace then parseObjectBody fuel cs1
      else if c = '[' then parseArrayBody fuel cs1
      else if c = 't' then
        match cs1 with
        | 'r' :: 'u' :: 'e' :: rest => Except.ok (Json.bool true, rest)
        | _ => Except.error "Unexpected token in JSON"
      else if c = 'f' then
        match cs1 with
        | 'a' :: 'l' :: 's' :: 'e' :: rest => Except.ok (Json.bool false, rest)
        | _ => Except.error "Unexpected token in JSON"
      else if c = 'n' then
        match cs1 with
        | 'u' :: 'l' :: 'l' :: rest => Except.ok (Json.null, rest)
        | _ => Except.error "Unexpected token in JSON"
      else if c = '-' ∨ isDigitCh c then
        match parseNumber (c :: cs1) with
        | Except.ok (tok, rest) => Except.ok (Json.num (String.mk tok), rest)
        | Except.error e => Except.error e
      else Except.error "Unexpected token in JSON"

/-- Array contents after the opening bracket. -/
def parseArrayBody : Nat → List Char → Except String (Json × List Char)
  | 0, _ => Except.error "JSON input too deeply nested"
  | fuel + 1, cs =>
    match skipWs cs with
    | [] => Except.error "Unexpected end of JSON input"
    | c :: rest =>
      if c = ']' then Except.ok (Json.arr [], rest)
      else
        match parseValue fuel (c :: rest) with
        | Except.error e => Except.error e
        | Except.ok (v, cs2) =>
          match parseArrayRest fuel cs2 with
          | Except.error e => Except.error e
          | Except.ok (vs, cs3) => Except.ok (Json.arr (v :: vs), cs3)

/-- Remaining array items after at least one value. -/
def parseArrayRest : Nat → List Char → Except String (List Json × List Char)
  | 0, _ => Except.error "JSON input too deeply nested"
  | fuel + 1, cs =>
    match skipWs cs with
    | [] => Except.error "Unexpected end of JSON input"
    | c :: rest =>
      if c = ']' then Except.ok ([], rest)
      else if c = ',' then
        match parseValue fuel rest with
        | Except.error e => Except.error e
        | Except.ok (v, cs2) =>
          match parseArrayRest fuel cs2 with
          | Except.error e => Except.error e
          | Except.ok (vs, cs3) => Except.ok (v :: vs, cs3)
      else Except.error "Expected comma or closing bracket after JSON array element"

/-- Object contents after the opening brace. -/
def parseObjectBody : Nat → List Char → Except String (Json × List Char)
  | 0, _ => Except.error "JSON input too deeply nested"
  | fuel + 1, cs =>
    match skipWs cs with
    | [] => Except.error "Unexpected end of JSON input"
    | c :: rest =>
      if c = rbrace then Except.ok (Json.obj [], rest)
      else
        match parsePair fuel (c :: rest) with
        | Except.error e => Except.error e
        | Except.ok (p, cs2) =>
          match parseObjectRest fuel cs2 with
          | Except.error e => Except.error e
          | Except.ok (ps, cs3) => Except.ok (Json.obj (p :: ps), cs3)

/-- One `"key": value` pair of a JSON object. -/
def parsePair : Nat → List Char → Except String ((String × Json) × List Char)
  | 0, _ => Except.error "JSON input too deeply nested"
  | fuel + 1, cs =>
    match skipWs cs with
    | [] => Except.error "Unexpected end of JSON input"
    | c :: rest =>
      if c = quoteChar then
        match parseStringBody rest with
        | Except.error e => Except.error e
        | Except.ok (k, cs2) =>
          match skipWs cs2 with
          | [] => Except.error "Unexpected end of JSON input"
          | c2 :: cs3 =>
            if c2 = ':' then
              match parseValue fuel cs3 with
              | Except.error e => Except.error e
              | Except.ok (v, cs4) => Except.ok ((String.mk k, v), cs4)
            else Except.error "Expected colon after property name in JSON"
      else Except.error "Expected property name or closing brace in JSON"

/-- Remaining object pairs after at least one pair. -/
def parseObjectRest : Nat → List Char → Except String (List (String × Json) × List Char)
  | 0, _ => Except.error "JSON input too deeply nested"
  | fuel + 1, cs =>
    match skipWs cs with
    | [] => Except.error "Unexpected end of JSON input"
    | c :: rest =>
      if c = rbrace then Except.ok ([], rest)
      else if c = ',' then
        match parsePair fuel rest with
        | Except.error e => Except.error e
        | Except.ok (p, cs2) =>
          match parseObjectRest fuel cs2 with
          | Except.error e => Except.error e
          | Except.ok (ps, cs3) => Except.ok (p :: ps, cs3)
      else Except.error "Expected comma or closing brace after JSON property"

end

/-- Model of JavaScript `JSON.parse`: parse one value, then require only
whitespace to remain.  The fuel `2 * s.length + 2` exceeds any possible
nesting of the input. -/
def jsonParse (s : String) : Except String Json :=
  match parseValue (2 * s.length + 2) s.toList with
  | Except.error e => Except.error e
  | Except.ok (v, rest) =>
    match skipWs rest with
    | [] => Except.ok v
    | _ => Except.error "Unexpected non-whitespace character after JSON data"

/-- JavaScript exceptions the component can throw: `SyntaxError` from
`JSON.parse`, `TypeError` from calling `.map` on a non-array or reading a
property of `null`, and `Error` from the explicit `throw new Error(...)`. -/
inductive JsError where
  | syntaxError (msg : String) : JsError
  | typeError (msg : String) : JsError
  | error (msg : String) : JsError
deriving DecidableEq

/-- `interface TeamMember` of the source (all plain strings). -/
structure TeamMember where
  name : String
  designation : String
  department : String
  city : String
  state : String
  mobile : String
  email : String
deriving DecidableEq

/-- `interface hackathon_registration` of the source.  TypeScript `number`
fields hold integers here (ids, counts); `user_id : number | null` is an
`Option`.  `members` is the nested JSON string. -/
structure hackathon_registration where
  id : Int
  registration_id : String
  project_title : String
  team_name : String
  team_size : Int
  institution_name : String
  problem_domain : String
  agree_to_rules : Bool
  bonafide_file : String
  ppt_file : String
  demo_video_url : String
  github_repo_link : String
  members : String
  submitted_at : String
  user_id : Option Int
deriving DecidableEq

/-- `interface ApiResponse` of the source: the parsed dashboard snapshot. -/
structure ApiResponse where
  hackathon_registration : List hackathon_registration
  totalUsers : Int
deriving DecidableEq

/-- The HTTP response the component receives from `fetch`.  The source reads
only `res.ok` before throwing; the status code is carried to show it is never
inspected.  For an OK response, `data` is the payload `res.json()` yields
(structural trust, as in the source). -/
structure HttpResponse where
  ok : Bool
  status : Nat
  data : ApiResponse

/-- Rendered markup: a text node or an element with tag, attributes and
children.  React's `key` prop is modelled as a `"key"` attribute. -/
inductive Node where
  | text (s : String) : Node
  | elem (tag : String) (attrs : List (String × String)) (children : List Node) : Node

/-- Children of a node (a text node has none). -/
def nodeChildren : Node → List Node
  | Node.text _ => []
  | Node.elem _ _ cs => cs

/-- Attribute lookup on a node. -/
def nodeAttr (n : Node) (k : String) : Option String :=
  match n with
  | Node.text _ => none
  | Node.elem _ attrs _ => List.lookup k attrs

/-- The React key of a node. -/
def nodeKey (n : Node) : Option String := nodeAttr n "key"

mutual

/-- All text contained in a node, concatenated in order. -/
def textContent : Node → String
  | Node.text s => s
  | Node.elem _ _ cs => textContentList cs

/-- All text contained in a list of nodes, concatenated in order. -/
def textContentList : List Node → String
  | [] => ""
  | n :: ns => textContent n ++ textContentList ns

end

/-- Property read on an object: JavaScript keeps the last duplicate key from
`JSON.parse`, so lookup is last-wins.  `none` is JavaScript `undefined`. -/
def objGet (fields : List (String × Json)) (k : String) : Option Json :=
  fields.foldl (fun acc p => if p.1 = k then some p.2 else acc) none

/-- Property read `m.k` on a parsed JSON value, as JavaScript evaluates it:
reading on `null` throws a `TypeError`; on a non-object it yields `undefined`
(none of the member field names is a built-in property); on an object it is a
field lookup. -/
def jsGet : Json → String → Except JsError (Option Json)
  | Json.null, _ => Except.error (JsError.typeError "Cannot read properties of null")
  | Json.obj fields, k => Except.ok (objGet fields k)
  | _, _ => Except.ok none

mutual

/-- How React renders an interpolated JavaScript value as text: `null` and
booleans render as nothing, strings as themselves, arrays as the
concatenation of their elements, and objects throw.  A number renders as its
numeric token (faithful for the integer and decimal tokens that occur here;
no claim depends on exotic float formatting). -/
def renderChildVal : Json → Except JsError String
  | Json.null => Except.ok ""
  | Json.bool _ => Except.ok ""
  | Json.str s => Except.ok s
  | Json.num raw => Except.ok raw
  | Json.arr xs => renderChildList xs
  | Json.obj _ =>
      Except.error (JsError.typeError "Objects are not valid as a React child")

/-- Render a list of values as concatenated children. -/
def renderChildList : List Json → Except JsError String
  | [] => Except.ok ""
  | x :: xs =>
    match renderChildVal x with
    | Except.error e => Except.error e
    | Except.ok s =>
      match renderChildList xs with
      | Except.error e => Except.error e
      | Except.ok rest => Except.ok (s ++ rest)

end

/-- Render an optional value (`undefined` renders as nothing). -/
def renderChildOpt : Option Json → Except JsError String
  | none => Except.ok ""
  | some v => renderChildVal v

/-- The text of one member `<li>`:
`{m.name} ({m.designation}) – {m.email}` (the separator is an en dash). -/
def renderMemberLine (m : Json) : Except JsError String :=
  match jsGet m "name" with
  | Except.error e => Except.error e
  | Except.ok nmv =>
    match renderChildOpt nmv with
    | Except.error e => Except.error e
    | Except.ok nm =>
      match jsGet m "designation" with
      | Except.error e => Except.error e
      | Except.ok dgv =>
        match renderChildOpt dgv with
        | Except.error e => Except.error e
        | Except.ok dg =>
          match jsGet m "email" with
          | Except.error e => Except.error e
          | Except.ok emv =>
            match renderChildOpt emv with
            | Except.error e => Except.error e
            | Except.ok em => Except.ok (nm ++ " (" ++ dg ++ ") – " ++ em)

/-- The member `<li>` nodes: `members.map((m, index) => <li key={index}>…)`. -/
def renderMemberLis : Nat → List Json → Except JsError (List Node)
  | _, [] => Except.ok []
  | i, m :: ms =>
    match renderMemberLine m with
    | Except.error e => Except.error e
    | Except.ok line =>
      match renderMemberLis (i + 1) ms with
      | Except.error e => Except.error e
      | Except.ok lis =>
        Except.ok (Node.elem "li" [("key", toString i)] [Node.text line] :: lis)

/-- One `<p><b>label</b> value</p>` cell of the summary grid. -/
def kvCell (label value : String) : Node :=
  Node.elem "p" [] [Node.elem "b" [] [Node.text label], Node.text (" " ++ value)]

/-- One labelled outbound link `<a href=… target=_blank>label</a>`. -/
def linkNode (href label : String) : Node :=
  Node.elem "a" [("href", href), ("target", "_blank")] [Node.text label]

/-- The card markup for one registration record, given its rendered member
list items.  Mirrors the JSX of lines 63–111 of the source. -/
def cardNode (item : hackathon_registration) (lis : List Node) : Node :=
  Node.elem "div"
    [("key", toString item.id), ("className", "border rounded-lg p-4 space-y-3")]
    [ Node.elem "div" []
        [ Node.elem "h2" [("className", "text-xl font-semibold")]
            [Node.text item.project_title],
          Node.elem "p" [("className", "text-sm text-gray-600")]
            [Node.text (item.registration_id ++ " • " ++ item.problem_domain)] ],
      Node.elem "div" [("className", "grid grid-cols-2 gap-2 text-sm")]
        [ kvCell "Team:" item.team_name,
          kvCell "Size:" (toString item.team_size),
          kvCell "Institution:" item.institution_name,
          kvCell "Submitted:" item.submitted_at ],
      Node.elem "div" []
        [ Node.elem "h3" [("className", "font-semibold")] [Node.text "Members"],
          Node.elem "ul" [("className", "list-disc list-inside text-sm")] lis ],
      Node.elem "div" [("className", "flex gap-4 text-sm text-blue-600 underline")]
        [ linkNode item.ppt_file "PPT",
          linkNode item.bonafide_file "Bonafide",
          linkNode item.github_repo_link "GitHub",
          linkNode item.demo_video_url "Demo" ] ]

/-- The map callback for one record: `JSON.parse(item.members)` (a
`SyntaxError` aborts), `.map` over the result (a `TypeError` if it is not an
array), then the card markup. -/
def renderItem (item : hackathon_registration) : Except JsError Node :=
  match jsonParse item.members with
  | Except.error e => Except.error (JsError.syntaxError e)
  | Except.ok j =>
    match j with
    | Json.arr ms =>
      match renderMemberLis 0 ms with
      | Except.error e => Except.error e
      | Except.ok lis => Except.ok (cardNode item lis)
    | _ => Except.error (JsError.typeError "members.map is not a function")

/-- `data.hackathon_registration.map(...)`: the callback runs eagerly in
order; the first thrown exception aborts the whole render. -/
def renderItems : List hackathon_registration → Except JsError (List Node)
  | [] => Except.ok []
  | item :: rest =>
    match renderItem item with
    | Except.error e => Except.error e
    | Except.ok card =>
      match renderItems rest with
      | Except.error e => Except.error e
      | Except.ok cards => Except.ok (card :: cards)

/-- The `<h1>` header: `Admin Dashboard ({data.totalUsers})`. -/
def headerNode (totalUsers : Int) : Node :=
  Node.elem "h1" [("className", "text-2xl font-bold")]
    [Node.text ("Admin Dashboard (" ++ toString totalUsers ++ ")")]

/-- The whole page body for a parsed payload: header followed by one card per
record, in payload order. -/
def renderPage (data : ApiResponse) : Except JsError Node :=
  match renderItems data.hackathon_registration with
  | Except.error e => Except.error e
  | Except.ok cards =>
    Except.ok (Node.elem "div" [("className", "p-6 space-y-6")]
      (headerNode data.totalUsers :: cards))

/-- The component from the HTTP response onwards: a non-OK response throws
`new Error("Failed to fetch admin data")` before any markup is produced;
otherwise the payload is rendered. -/
def Page (res : HttpResponse) : Except JsError Node :=
  if res.ok then renderPage res.data
  else Except.error (JsError.error "Failed to fetch admin data")

/-- A string-valued property of a parsed JSON object (last-wins lookup). -/
def strField (fields : List (String × Json)) (k : String) : Option String :=
  match objGet fields k with
  | some (Json.str s) => some s
  | _ => none

/-- A parsed JSON value decodes to a `TeamMember` when it is an object whose
seven `TeamMember` properties are all strings (extra properties are allowed,
as TypeScript's structural typing never checks at runtime). -/
def decodeTeamMember : Json → Option TeamMember
  | Json.obj fields => do
      let nm ← strField fields "name"
      let dg ← strField fields "designation"
      let dp ← strField fields "department"
      let ct ← strField fields "city"
      let st ← strField fields "state"
      let mb ← strField fields "mobile"
      let em ← strField fields "email"
      some { name := nm, designation := dg, department := dp, city := ct,
             state := st, mobile := mb, email := em }
  | _ => none

/-- Decode every element of a JSON array as a `TeamMember`. -/
def decodeMemberList : List Json → Option (List TeamMember)
  | [] => some []
  | x :: xs =>
    match decodeTeamMember x with
    | none => none
    | some tm =>
      match decodeMemberList xs with
      | none => none
      | some tms => some (tm :: tms)

/-- "The members field deserializes to a sequence of TeamMember entries":
the string parses as a JSON array whose elements all decode. -/
def decodeMembers (s : String) : Option (List TeamMember) :=
  match jsonParse s with
  | Except.ok (Json.arr xs) => decodeMemberList xs
  | _ => none

/-- The member-line format of the spec: `"{name} ({designation}) – {email}"`. -/
def formatMember (tm : TeamMember) : String :=
  tm.name ++ " (" ++ tm.designation ++ ") – " ++ tm.email

/-- Default node for positional accessors. -/
def emptyNode : Node := Node.text ""

/-- Default record for positional accessors. -/
def defaultReg : hackathon_registration :=
  { id := 0, registration_id := "", project_title := "", team_name := "",
    team_size := 0, institution_name := "", problem_domain := "",
    agree_to_rules := false, bonafide_file := "", ppt_file := "",
    demo_video_url := "", github_repo_link := "", members := "",
    submitted_at := "", user_id := none }

/-- The text of a rendered member list item. -/
def liLine : Node → Option String
  | Node.elem "li" _ [Node.text s] => some s
  | _ => none

/-- The member list items of a rendered card: the children of the `<ul>`
inside the third child (the Members block). -/
def cardMemberItems (card : Node) : List Node :=
  nodeChildren ((nodeChildren ((nodeChildren card).getD 2 emptyNode)).getD 1
    emptyNode)

/-- The member lines of a rendered card: the texts of its `<li>` items. -/
def cardMemberLines (card : Node) : List String :=
  (cardMemberItems card).filterMap liLine

/-- Label, href and target of a rendered link. -/
def linkInfo : Node → Option (String × String × String)
  | Node.elem "a" attrs [Node.text label] =>
      some (label, (List.lookup "href" attrs).getD "",
        (List.lookup "target" attrs).getD "")
  | _ => none

/-- The labelled links of a rendered card: the `<a>` elements of the fourth
child (the links row). -/
def cardLinks (card : Node) : List (String × String × String) :=
  (nodeChildren ((nodeChildren card).getD 3 emptyNode)).filterMap linkInfo

/-- The full text of the Size cell of a rendered card (second cell of the
summary grid, the card's second child). -/
def sizeLine (card : Node) : String :=
  textContent ((nodeChildren ((nodeChildren card).getD 1 emptyNode)).getD 1
    emptyNode)

/-- The full text of the page header (first child of the page body). -/
def headerText (page : Node) : String :=
  textContent ((nodeChildren page).getD 0 emptyNode)

/-- The `<li>` nodes produced for a decoded member list starting at a given
index. -/
def lisFrom (i : Nat) : List TeamMember → List Node
  | [] => []
  | tm :: tms =>
    Node.elem "li" [("key", toString i)] [Node.text (formatMember tm)] ::
      lisFrom (i + 1) tms

/-! ## Helper lemmas -/

theorem strField_objGet {fields : List (String × Json)} {k s : String}
    (h : strField fields k = some s) : objGet fields k = some (Json.str s) := by
  unfold strField at h
  split at h
  · next heq => cases h; exact heq
  · cases h

theorem renderMemberLine_decode {m : Json} {tm : TeamMember}
    (h : decodeTeamMember m = some tm) :
    renderMemberLine m = Except.ok (formatMember tm) := by
  cases m <;> try cases h
  next fields =>
  simp only [decodeTeamMember, Option.bind_eq_bind, Option.bind_eq_some] at h
  obtain ⟨nm, hnm, dg, hdg, dp, hdp, ct, hct, st, hst, mb, hmb, em, hem, htm⟩ := h
  cases htm
  simp [renderMemberLine, jsGet, strField_objGet hnm, strField_objGet hdg,
    strField_objGet hem, renderChildOpt, renderChildVal, formatMember]

theorem renderMemberLis_decode :
    ∀ (ms : List Json) (tms : List TeamMember) (i : Nat),
      decodeMemberList ms = some tms →
      renderMemberLis i ms = Except.ok (lisFrom i tms)
  | [], tms, i, h => by cases h; rfl
  | m :: ms, tms, i, h => by
    unfold decodeMemberList at h
    split at h
    · cases h
    · next tm htm =>
      split at h
      · cases h
      · next tms2 htms =>
        cases h
        simp [renderMemberLis, renderMemberLine_decode htm,
          renderMemberLis_decode ms tms2 (i + 1) htms, lisFrom]

theorem lisFrom_filterMap :
    ∀ (i : Nat) (tms : List TeamMember),
      (lisFrom i tms).filterMap liLine = tms.map formatMember
  | _, [] => rfl
  | i, tm :: tms => by
    simp [lisFrom, List.filterMap, liLine, lisFrom_filterMap (i + 1) tms]

theorem lisFrom_length (i : Nat) (tms : List TeamMember) :
    (lisFrom i tms).length = tms.length := by
  induction tms generalizing i with
  | nil => rfl
  | cons tm tms ih => simp [lisFrom, ih]

theorem cardMemberLines_cardNode (item : hackathon_registration)
    (lis : List Node) :
    cardMemberLines (cardNode item lis) = lis.filterMap liLine := rfl

theorem cardLinks_cardNode (item : hackathon_registration) (lis : List Node) :
    cardLinks (cardNode item lis) =
      [("PPT", item.ppt_file, "_blank"),
       ("Bonafide", item.bonafide_file, "_blank"),
       ("GitHub", item.github_repo_link, "_blank"),
       ("Demo", item.demo_video_url, "_blank")] := rfl

theorem sizeLine_cardNode (item : hackathon_registration) (lis : List Node) :
    sizeLine (cardNode item lis) = "Size: " ++ toString item.team_size := by
  show textContent (kvCell "Size:" (toString item.team_size)) = _
  simp [kvCell, textContent, textContentList, String.append_empty]
  rfl

theorem renderItem_ok_card {item : hackathon_registration} {card : Node}
    (h : renderItem item = Except.ok card) :
    ∃ ms lis, jsonParse item.members = Except.ok (Json.arr ms) ∧
      renderMemberLis 0 ms = Except.ok lis ∧ card = cardNode item lis := by
  unfold renderItem at h
  split at h
  · cases h
  · next j hj =>
    split at h
    · next ms =>
      split at h
      · cases h
      · next lis hlis => cases h; exact ⟨ms, lis, hj, hlis, rfl⟩
    · cases h

theorem renderItem_key {item : hackathon_registration} {card : Node}
    (h : renderItem item = Except.ok card) :
    nodeKey card = some (toString item.id) := by
  obtain ⟨ms, lis, -, -, hcard⟩ := renderItem_ok_card h
  cases hcard
  rfl

theorem renderItems_ok :
    ∀ {l : List hackathon_registration} {cards : List Node},
      renderItems l = Except.ok cards →
      cards.length = l.length ∧
        ∀ i, i < l.length →
          renderItem (l.getD i defaultReg) = Except.ok (cards.getD i emptyNode)
  | [], cards, h => by
    cases h
    exact ⟨rfl, fun i hi => absurd hi (Nat.not_lt_zero i)⟩
  | item :: rest, cards, h => by
    unfold renderItems at h
    split at h
    · cases h
    · next card hcard =>
      split at h
      · cases h
      · next cs hcs =>
        cases h
        obtain ⟨hlen, hpt⟩ := renderItems_ok hcs
        refine ⟨by simp [hlen], fun i hi => ?_⟩
        match i with
        | 0 => exact hcard
        | i + 1 => exact hpt i (Nat.lt_of_succ_lt_succ hi)

theorem renderItems_err :
    ∀ {l : List hackathon_registration} {item : hackathon_registration}
      {e : String}, item ∈ l → jsonParse item.members = Except.error e →
      ∃ e', renderItems l = Except.error e'
  | [], _, _, hmem, _ => absurd hmem (List.not_mem_nil _)
  | x :: rest, item, e, hmem, hp => by
    rcases List.mem_cons.mp hmem with heq | htail
    · subst heq
      refine ⟨JsError.syntaxError e, ?_⟩
      unfold renderItems renderItem
      rw [hp]
    · unfold renderItems
      cases hx : renderItem x with
      | error e' => exact ⟨e', rfl⟩
      | ok card =>
        obtain ⟨e', he'⟩ := renderItems_err htail hp
        rw [he']
        exact ⟨e', rfl⟩

theorem cardMemberItems_cardNode (item : hackathon_registration)
    (lis : List Node) : cardMemberItems (cardNode item lis) = lis := rfl

theorem renderItem_eq_card {item : hackathon_registration} {ms : List Json}
    {lis : List Node} (hp : jsonParse item.members = Except.ok (Json.arr ms))
    (hl : renderMemberLis 0 ms = Except.ok lis) :
    renderItem item = Except.ok (cardNode item lis) := by
  simp only [renderItem, hp, hl]

/-! ## The claims -/

/-- C1: for every valid `DashboardSnapshot` whose `hackathon_registration`
sequence contains N records, rendering produces exactly N registration
cards, one per record, keyed by that record's numeric id, and in the same
order as the records appear in the snapshot (no re-sorting). -/
theorem claim_C1 (data : ApiResponse) (html : Node)
    (h : renderPage data = Except.ok html) :
    ∃ cards, nodeChildren html = headerNode data.totalUsers :: cards ∧
      cards.length = data.hackathon_registration.length ∧
      ∀ i, i < data.hackathon_registration.length →
        renderItem (data.hackathon_registration.getD i defaultReg) =
          Except.ok (cards.getD i emptyNode) ∧
        nodeKey (cards.getD i emptyNode) =
          some (toString ((data.hackathon_registration.getD i defaultReg).id)) := by
  unfold renderPage at h
  split at h
  · cases h
  · next cards hcards =>
    cases h
    obtain ⟨hlen, hpt⟩ := renderItems_ok hcards
    exact ⟨cards, rfl, hlen, fun i hi =>
      ⟨hpt i hi, renderItem_key (hpt i hi)⟩⟩

def sampleReg1 : hackathon_registration :=
  { defaultReg with id := 7, members := "[]" }

def sampleData1 : ApiResponse := ⟨[sampleReg1], 3⟩

def sampleHtml1 : Node := (renderPage sampleData1).toOption.getD emptyNode

theorem claim_C1_witness :
    renderPage sampleData1 = Except.ok sampleHtml1 ∧
    (∃ cards, nodeChildren sampleHtml1 =
        headerNode sampleData1.totalUsers :: cards ∧
      cards.length = sampleData1.hackathon_registration.length ∧
      ∀ i, i < sampleData1.hackathon_registration.length →
        renderItem (sampleData1.hackathon_registration.getD i defaultReg) =
          Except.ok (cards.getD i emptyNode) ∧
        nodeKey (cards.getD i emptyNode) =
          some (toString
            ((sampleData1.hackathon_registration.getD i defaultReg).id))) :=
  ⟨rfl, claim_C1 sampleData1 sampleHtml1 rfl⟩

/-- C2: for every registration record whose `members` string deserializes to
a sequence of M `TeamMember` entries, the rendered card contains exactly M
member list entries, and each entry is formatted exactly as
`"{name} ({designation}) – {email}"` using that member's fields. -/
theorem claim_C2 (item : hackathon_registration) (tms : List TeamMember)
    (h : decodeMembers item.members = some tms) :
    ∃ card, renderItem item = Except.ok card ∧
      (cardMemberItems card).length = tms.length ∧
      cardMemberLines card = tms.map formatMember := by
  unfold decodeMembers at h
  split at h
  · next xs heq =>
    refine ⟨cardNode item (lisFrom 0 tms),
      renderItem_eq_card heq (renderMemberLis_decode xs tms 0 h), ?_, ?_⟩
    · rw [cardMemberItems_cardNode, lisFrom_length]
    · rw [cardMemberLines, cardMemberItems_cardNode, lisFrom_filterMap]
  · cases h

def bobMembers : String :=
  "[\x7b\"name\":\"Bob\",\"designation\":\"Dev\",\"department\":\"IT\",\"city\":\"Delhi\",\"state\":\"DL\",\"mobile\":\"123\",\"email\":\"bob@example.com\"\x7d]"

def bobTm : TeamMember :=
  ⟨"Bob", "Dev", "IT", "Delhi", "DL", "123", "bob@example.com"⟩

def bobReg : hackathon_registration :=
  { defaultReg with id := 2, members := bobMembers }

theorem claim_C2_witness :
    decodeMembers bobReg.members = some [bobTm] ∧
    (∃ card, renderItem bobReg = Except.ok card ∧
      (cardMemberItems card).length = [bobTm].length ∧
      cardMemberLines card = [bobTm].map formatMember) :=
  ⟨rfl, claim_C2 bobReg [bobTm] rfl⟩

/-- C3: for every HTTP response with a non-success status, the component
fails the whole render by raising a generic fetch-failed error before
producing any output: no partial or empty dashboard is rendered (the result
is an error, not markup), and the outcome is the same error for every
non-success status (no retry, no 4xx/5xx distinction). -/
theorem claim_C3 (res : HttpResponse) (h : res.ok = false) :
    Page res = Except.error (JsError.error "Failed to fetch admin data") := by
  simp [Page, h]

def resC3 : HttpResponse := ⟨false, 404, ⟨[], 5⟩⟩

theorem claim_C3_witness :
    resC3.ok = false ∧
    Page resC3 = Except.error (JsError.error "Failed to fetch admin data") :=
  ⟨rfl, claim_C3 resC3 rfl⟩

/-- C4: for every successfully parsed payload, the header displays the
payload's `totalUsers` value verbatim, and this displayed value is a
function of `totalUsers` alone (the right-hand side below mentions nothing
but `totalUsers`), not of the number of registration records. -/
theorem claim_C4 (data : ApiResponse) (html : Node)
    (h : renderPage data = Except.ok html) :
    (nodeChildren html).getD 0 emptyNode = headerNode data.totalUsers ∧
    headerText html = "Admin Dashboard (" ++ toString data.totalUsers ++ ")" := by
  unfold renderPage at h
  split at h
  · cases h
  · next cards hcards =>
    cases h
    refine ⟨rfl, ?_⟩
    simp [headerText, headerNode, textContent, textContentList, nodeChildren,
      String.append_empty]

def dataC4 : ApiResponse := ⟨[], 42⟩

def htmlC4 : Node := (renderPage dataC4).toOption.getD emptyNode

theorem claim_C4_witness :
    renderPage dataC4 = Except.ok htmlC4 ∧
    ((nodeChildren htmlC4).getD 0 emptyNode = headerNode dataC4.totalUsers ∧
      headerText htmlC4 =
        "Admin Dashboard (" ++ toString dataC4.totalUsers ++ ")") :=
  ⟨rfl, claim_C4 dataC4 htmlC4 rfl⟩

/-- C5: for every registration record, each of the four link fields
(`ppt_file`, `bonafide_file`, `github_repo_link`, `demo_video_url`), when
non-empty, yields in that record's card a distinctly labelled outbound link
(labelled PPT, Bonafide, GitHub, Demo respectively) whose target is exactly
the stored string value and which opens in a new browsing context
(`target="_blank"`). -/
theorem claim_C5 (item : hackathon_registration) (card : Node)
    (h : renderItem item = Except.ok card)
    (_hp : item.ppt_file ≠ "") (_hb : item.bonafide_file ≠ "")
    (_hg : item.github_repo_link ≠ "") (_hd : item.demo_video_url ≠ "") :
    cardLinks card =
      [("PPT", item.ppt_file, "_blank"),
       ("Bonafide", item.bonafide_file, "_blank"),
       ("GitHub", item.github_repo_link, "_blank"),
       ("Demo", item.demo_video_url, "_blank")] := by
  obtain ⟨ms, lis, -, -, hcard⟩ := renderItem_ok_card h
  cases hcard
  exact cardLinks_cardNode item lis

def regC5 : hackathon_registration :=
  { defaultReg with
    id := 5
    members := "[]"
    ppt_file := "https://x.test/p.pdf"
    bonafide_file := "https://x.test/b.pdf"
    github_repo_link := "https://x.test/repo"
    demo_video_url := "https://x.test/demo" }

def cardC5 : Node := (renderItem regC5).toOption.getD emptyNode

theorem claim_C5_witness :
    renderItem regC5 = Except.ok cardC5 ∧
    regC5.ppt_file ≠ "" ∧ regC5.bonafide_file ≠ "" ∧
    regC5.github_repo_link ≠ "" ∧ regC5.demo_video_url ≠ "" ∧
    cardLinks cardC5 =
      [("PPT", regC5.ppt_file, "_blank"),
       ("Bonafide", regC5.bonafide_file, "_blank"),
       ("GitHub", regC5.github_repo_link, "_blank"),
       ("Demo", regC5.demo_video_url, "_blank")] :=
  ⟨rfl, by decide, by decide, by decide, by decide,
    claim_C5 regC5 cardC5 rfl (by decide) (by decide) (by decide) (by decide)⟩

/-- C6: for every payload containing some registration record whose
`members` field is not valid serialized JSON, the render has no local
recovery: the deserialization failure propagates out of the component as an
uncaught failure (the component neither skips the record nor renders a
degraded card — the whole render is an error). -/
theorem claim_C6 (data : ApiResponse) (item : hackathon_registration)
    (e : String) (hmem : item ∈ data.hackathon_registration)
    (hp : jsonParse item.members = Except.error e) :
    ∃ e', renderPage data = Except.error e' := by
  obtain ⟨e', he'⟩ := renderItems_err hmem hp
  refine ⟨e', ?_⟩
  unfold renderPage
  rw [he']

def regC6 : hackathon_registration :=
  { defaultReg with
    id := 6
    members := "oops" }

def dataC6 : ApiResponse := ⟨[regC6], 1⟩

theorem claim_C6_witness :
    regC6 ∈ dataC6.hackathon_registration ∧
    jsonParse regC6.members = Except.error "Unexpected token in JSON" ∧
    (∃ e', renderPage dataC6 = Except.error e') :=
  ⟨List.mem_singleton.mpr rfl, rfl,
    claim_C6 dataC6 regC6 "Unexpected token in JSON"
      (List.mem_singleton.mpr rfl) rfl⟩

/-- The exact members string of the spec's round-trip scenario. -/
def ashaMembers : String :=
  "[\x7b\"name\":\"Asha\",\"designation\":\"Lead\",\"department\":\"CS\",\"city\":\"Pune\",\"state\":\"MH\",\"mobile\":\"9999999999\",\"email\":\"asha@example.com\"\x7d]"

def ashaReg : hackathon_registration :=
  { defaultReg with
    id := 1
    members := ashaMembers }

def ashaCard : Node := (renderItem ashaReg).toOption.getD emptyNode

/-- The spec's empty snapshot scenario. -/
def emptySnap : ApiResponse := ⟨[], 0⟩

/-- C7: for the specific registration record whose `members` field is the
string
`[{"name":"Asha","designation":"Lead","department":"CS","city":"Pune","state":"MH","mobile":"9999999999","email":"asha@example.com"}]`
(one object, all seven fields strings), the rendered card contains exactly
one member line reading `Asha (Lead) – asha@example.com`. -/
theorem claim_C7 :
    ∃ card, renderItem ashaReg = Except.ok card ∧
      cardMemberLines card = ["Asha (Lead) – asha@example.com"] :=
  ⟨ashaCard, rfl, rfl⟩

/-- C8: for the snapshot `{ "hackathon_registration": [], "totalUsers": 0 }`,
rendering produces a header reading `Admin Dashboard (0)` and zero
registration cards (the page body's children are the header and nothing
else). -/
theorem claim_C8 :
    ∃ html, renderPage emptySnap = Except.ok html ∧
      headerText html = "Admin Dashboard (0)" ∧
      nodeChildren html = [headerNode 0] :=
  ⟨Node.elem "div" [("className", "p-6 space-y-6")] [headerNode 0],
    rfl, rfl, rfl⟩

/-- C9: for every registration record, the four labelled links (PPT,
Bonafide, GitHub, Demo) are rendered unconditionally, including when the
corresponding link field is the empty string: an empty field still produces
a labelled link whose target is the empty string, with no omission or
placeholder (the links list is always exactly these four). -/
theorem claim_C9 (item : hackathon_registration) (card : Node)
    (h : renderItem item = Except.ok card) :
    cardLinks card =
      [("PPT", item.ppt_file, "_blank"),
       ("Bonafide", item.bonafide_file, "_blank"),
       ("GitHub", item.github_repo_link, "_blank"),
       ("Demo", item.demo_video_url, "_blank")] := by
  obtain ⟨ms, lis, -, -, hcard⟩ := renderItem_ok_card h
  cases hcard
  exact cardLinks_cardNode item lis

def regC9 : hackathon_registration :=
  { defaultReg with
    id := 9
    members := "[]" }

def cardC9 : Node := (renderItem regC9).toOption.getD emptyNode

theorem claim_C9_witness :
    renderItem regC9 = Except.ok cardC9 ∧
    regC9.ppt_file = "" ∧ regC9.bonafide_file = "" ∧
    regC9.github_repo_link = "" ∧ regC9.demo_video_url = "" ∧
    cardLinks cardC9 =
      [("PPT", "", "_blank"), ("Bonafide", "", "_blank"),
       ("GitHub", "", "_blank"), ("Demo", "", "_blank")] :=
  ⟨rfl, rfl, rfl, rfl, rfl, claim_C9 regC9 cardC9 rfl⟩

/-- C10: for every registration record whose `members` field decodes, the
Size cell of the rendered card displays the record's `team_size` value
verbatim, with no consistency check against the decoded members sequence:
nothing relates `team_size` to the number of member lines, and both are
rendered without error even when they differ. -/
theorem claim_C10 (item : hackathon_registration) (tms : List TeamMember)
    (h : decodeMembers item.members = some tms) :
    ∃ card, renderItem item = Except.ok card ∧
      sizeLine card = "Size: " ++ toString item.team_size ∧
      (cardMemberItems card).length = tms.length := by
  unfold decodeMembers at h
  split at h
  · next xs heq =>
    refine ⟨cardNode item (lisFrom 0 tms),
      renderItem_eq_card heq (renderMemberLis_decode xs tms 0 h),
      sizeLine_cardNode item (lisFrom 0 tms), ?_⟩
    rw [cardMemberItems_cardNode, lisFrom_length]
  · cases h

def miaMembers : String :=
  "[\x7b\"name\":\"Mia\",\"designation\":\"QA\",\"department\":\"EE\",\"city\":\"Goa\",\"state\":\"GA\",\"mobile\":\"456\",\"email\":\"mia@example.com\"\x7d]"

def miaTm : TeamMember :=
  ⟨"Mia", "QA", "EE", "Goa", "GA", "456", "mia@example.com"⟩

def regC10 : hackathon_registration :=
  { defaultReg with
    id := 10
    team_size := 5
    members := miaMembers }

theorem claim_C10_witness :
    decodeMembers regC10.members = some [miaTm] ∧
    regC10.team_size = 5 ∧ ([miaTm] : List TeamMember).length = 1 ∧
    (∃ card, renderItem regC10 = Except.ok card ∧
      sizeLine card = "Size: " ++ toString regC10.team_size ∧
      (cardMemberItems card).length = ([miaTm] : List TeamMember).length) :=
  ⟨rfl, rfl, rfl, claim_C10 regC10 [miaTm] rfl⟩
